import Mathlib

/-!
Verification development for the Intelbras AMT protocol engine
(custom_components/intelbras_amt: client.py, server.py, const.py).

Bytes are modelled as `Nat` values (a Python `bytes` element is always in
[0,255]; hypotheses state the bound where a statement needs it), byte
strings as `List Nat`, and Python `str` passwords as `List Char`.
Fallible code (`raise`) is modelled with `Except`/`Option`; code paths
that swallow an error and return nothing are total functions returning
`Option`.

Where a constant is imported by server.py from `.const` but absent from
the `const.py` in the tree (the file is stale relative to server.py),
the definition carries a doc comment starting `Modelled from the spec:`.
-/

namespace AMT

/-- Protocol constants from const.py (lines 24-25). -/
def FRAME_START : Nat := 0xE9

def FRAME_SEPARATOR : Nat := 0x21

/-- Modelled from the spec: `FRAME_HEARTBEAT` is imported by server.py from
`.const` but missing from the const.py in the tree.  Its value 0xF7 comes
from the source comment in server.py line 304 ("Check for heartbeat
(single byte 0xF7)") and the spec's heartbeat-sentinel description. -/
def FRAME_HEARTBEAT : Nat := 0xF7

/-- Model ids, const.py lines 62-64. -/
def MODEL_AMT_4010_SMART : Nat := 0x41

def MODEL_AMT_2018 : Nat := 0x39

def MODEL_AMT_1016 : Nat := 0x38

/-- Zone counts per model, const.py lines 85-87. -/
def MAX_ZONES_4010 : Nat := 64

def MAX_ZONES_2018 : Nat := 18

def MAX_ZONES_1016 : Nat := 16

/-- Client-side PGM count, const.py line 89. -/
def MAX_PGMS_CLIENT : Nat := 3

/-- Modelled from the spec: server.py imports its own `MAX_PGMS` from
`.const`, which the stale const.py does not provide (its value 3 belongs
to the client role).  The spec (section 9) says the inbound role supports
"up to 19" PGMs and server.py's `activate_pgm` accepts two-digit PGM
numbers, so the inbound count is modelled as 19. -/
def MAX_PGMS_SERVER : Nat := 19

/-- Modelled from the spec: sizes of the always-zero-filled inbound
tamper / short-circuit / low-battery zone arrays (constants missing from
const.py); modelled as the 64-zone maximum. -/
def MAX_ZONES_TAMPER : Nat := 64

def MAX_ZONES_SHORT_CIRCUIT : Nat := 64

def MAX_ZONES_LOW_BATTERY : Nat := 64

/-- Status-payload offsets for the outbound-poll (client) variant,
const.py lines 46-59. -/
def OFFSET_ZONES_OPEN_START : Nat := 2

def OFFSET_ZONES_VIOLATED_START : Nat := 10

def OFFSET_ZONES_BYPASSED_START : Nat := 18

def OFFSET_MODEL_ID : Nat := 26

def OFFSET_FIRMWARE : Nat := 27

def OFFSET_PARTITION_AB : Nat := 28

def OFFSET_PARTITION_CD : Nat := 29

def OFFSET_CENTRAL_STATUS : Nat := 30

def OFFSET_POWER_STATUS : Nat := 36

def OFFSET_BATTERY_LEVEL : Nat := 41

def OFFSET_PGM_SIREN_STATUS : Nat := 46

/-- Outbound-role checksum, client.py `AMTClient._calculate_checksum`
(lines 149-154): plain running XOR over all bytes, started at 0. -/
def client_checksum (data : List Nat) : Nat :=
  data.foldl Nat.xor 0

/-- Inbound-role checksum, server.py `AMTServer._calculate_checksum`
(lines 222-227): running XOR over all bytes, then XOR with 0xFF. -/
def server_checksum (data : List Nat) : Nat :=
  (data.foldl Nat.xor 0) ^^^ 0xFF

/-- ASCII uppercasing on code points, the effect of Python `str.upper`
on the characters the password encoder can meet (characters are compared
by code point throughout). -/
def to_upper_cp (n : Nat) : Nat :=
  if 97 ≤ n ∧ n ≤ 122 then n - 32 else n

/-- Hexadecimal digit value of a character, as Python `int(c, 16)` for a
single hex digit; 0 for anything else (the guard in the source never
calls it on a non-hex character). -/
def hex_digit_val (c : Char) : Nat :=
  if 48 ≤ c.toNat ∧ c.toNat ≤ 57 then c.toNat - 48
  else if 97 ≤ c.toNat ∧ c.toNat ≤ 102 then c.toNat - 87
  else if 65 ≤ c.toNat ∧ c.toNat ≤ 70 then c.toNat - 55
  else 0

/-- Test from client.py line 165: `pair[0].upper() in "0123456789ABCDEF"`,
with the membership taken over the code points of that string. -/
def is_hex_char (c : Char) : Bool :=
  [48, 49, 50, 51, 52, 53, 54, 55, 56, 57, 65, 66, 67, 68, 69, 70].contains
    (to_upper_cp c.toNat)

/-- Per-character decode used in `AMTClient._password_to_bytes`:
`int(c, 16)` when the uppercased character is a hex digit, else 0. -/
def password_char_val (c : Char) : Nat :=
  if is_hex_char c then hex_digit_val c else 0

/-- Nibble-packed password encoder, client.py
`AMTClient._password_to_bytes` (lines 156-168): right-pad with 'F' to
6 characters (`ljust`), truncate to 6, then pack the three adjacent
character pairs as `high <<< 4 ||| low`. -/
def password_to_bytes (pwd : List Char) : List Nat :=
  let padded := (pwd ++ List.replicate (6 - pwd.length) 'F').take 6
  (List.range 3).map fun i =>
    (password_char_val (padded.getD (2 * i) 'F') <<< 4) |||
      password_char_val (padded.getD (2 * i + 1) 'F')

/-- Specification restatement of the nibble-packed password encoder,
following the spec's words (section 4.2): right-pad with 'F' to exactly
6 characters, truncate to 6, hex-decode each adjacent character pair
with non-hex characters decoding as 0, pack each pair as
`high <<< 4 ||| low`, yielding exactly 3 bytes.  Used only to compare
against the source-derived `password_to_bytes`. -/
def password_spec (pwd : List Char) : List Nat :=
  let padded := (pwd ++ List.replicate (6 - pwd.length) 'F').take 6
  [ (hex_digit_val (padded.getD 0 'F') <<< 4) ||| hex_digit_val (padded.getD 1 'F'),
    (hex_digit_val (padded.getD 2 'F') <<< 4) ||| hex_digit_val (padded.getD 3 'F'),
    (hex_digit_val (padded.getD 4 'F') <<< 4) ||| hex_digit_val (padded.getD 5 'F') ]

/-- ASCII password encoding used by the server role, server.py line 233
(`pwd.encode('ascii')`). -/
def ascii_encode (pwd : List Char) : List Nat :=
  pwd.map Char.toNat

/-- Outbound command-frame builder, client.py `AMTClient._build_frame`
(lines 170-181).  `pwd` is the already-resolved password string.
Frame: `[length] [0xE9] [0x21] pwdBytes command [0x21] [checksum]` with
`length = |inner| + 1` (counts the checksum) and plain-XOR checksum over
everything before the checksum byte. -/
def client_build_frame (pwd : List Char) (command : List Nat) : List Nat :=
  let pwd_bytes := password_to_bytes pwd
  let inner := [FRAME_START, FRAME_SEPARATOR] ++ pwd_bytes ++ command ++ [FRAME_SEPARATOR]
  let len := inner.length + 1
  let frame_without_checksum := len :: inner
  frame_without_checksum ++ [client_checksum frame_without_checksum]

/-- Inbound command-frame builder, server.py `AMTServer._build_frame`
(lines 229-243).  Same shape as the client frame but the password is raw
ASCII, `length = |inner|` (excludes the checksum) and the checksum is the
inverted XOR. -/
def server_build_frame (pwd : List Char) (command : List Nat) : List Nat :=
  let pwd_bytes := ascii_encode pwd
  let inner := [FRAME_START, FRAME_SEPARATOR] ++ pwd_bytes ++ command ++ [FRAME_SEPARATOR]
  let len := inner.length
  let frame_without_checksum := len :: inner
  frame_without_checksum ++ [server_checksum frame_without_checksum]

/-- Checksum validation, server.py `AMTServer._validate_checksum`
(lines 329-335): frames shorter than 2 bytes are invalid, otherwise the
final byte must equal the inverted XOR of everything before it. -/
def validate_checksum (frame : List Nat) : Bool :=
  if frame.length < 2 then false
  else frame.getLastD 0 == server_checksum frame.dropLast

/-- Stream decoder, server.py `AMTServer._extract_frame` (lines 299-327).
Returns the extracted frame (or `none`) together with the buffer as the
mutation of the Python `bytearray` leaves it.  A checksum failure is
swallowed: the frame's bytes are consumed and `none` is returned; the
function is total, so no error can surface to a caller. -/
def extract_frame : List Nat → Option (List Nat) × List Nat
  | [] => (none, [])
  | b :: rest =>
    if b = FRAME_HEARTBEAT then
      (some [b], rest)
    else if (b :: rest).length < 3 then
      (none, b :: rest)
    else
      let total := b + 2
      if (b :: rest).length < total then
        (none, b :: rest)
      else
        let frame := (b :: rest).take total
        let remaining := (b :: rest).drop total
        if validate_checksum frame then (some frame, remaining)
        else (none, remaining)

/-- Outbound-role response read, client.py `AMTClient._send_command`
(lines 199-214): read one length byte, then read that many bytes as the
response (an empty stream models the connection-closed error path). -/
def client_read_response : List Nat → Option (List Nat) × List Nat
  | [] => (none, [])
  | l :: rest => (some (rest.take l), rest.drop l)

/-- Lowercase hexadecimal digit character for a value in [0,15]. -/
def hex_digit_char (n : Nat) : Char :=
  if n < 10 then Char.ofNat (48 + n) else Char.ofNat (87 + n)

/-- Two-digit lowercase hex rendering of a byte value, as Python
`f"{b:02x}"` for b in [0,255]. -/
def hex2 (n : Nat) : String :=
  String.mk [hex_digit_char (n / 16 % 16), hex_digit_char (n % 16)]

/-- Uppercase hexadecimal digit character for a value in [0,15]. -/
def hex_digit_char_upper (n : Nat) : Char :=
  if n < 10 then Char.ofNat (48 + n) else Char.ofNat (55 + n)

/-- Two-digit uppercase hex rendering of a byte value, as Python
`f"{b:02X}"` for b in [0,255]. -/
def hex2_upper (n : Nat) : String :=
  String.mk [hex_digit_char_upper (n / 16 % 16), hex_digit_char_upper (n % 16)]

/-- Model-name table, const.py `MODEL_NAMES` (lines 66-70). -/
def MODEL_NAMES (model_id : Nat) : Option String :=
  if model_id = MODEL_AMT_4010_SMART then some "AMT 4010 SMART"
  else if model_id = MODEL_AMT_2018 then some "AMT 2018"
  else if model_id = MODEL_AMT_1016 then some "AMT 1016"
  else none

/-- Per-partition decoded record (values of `_parse_partition_status`). -/
structure PartitionStatus where
  armed : Bool
  stay : Bool
  triggered : Bool
deriving Repr, DecidableEq

/-- Partition substatus decode, identical in client.py lines 237-243 and
server.py lines 442-448: bit0 = armed, bit1 = stay, bit2 = triggered. -/
def parse_partition_status (status_byte : Nat) : PartitionStatus :=
  { armed := status_byte.testBit 0
    stay := status_byte.testBit 1
    triggered := status_byte.testBit 2 }

/-- Bits contributed by one zone byte, inner loop of `_parse_zones`
(client.py lines 230-234, server.py lines 435-439): bits 0..7 of the
byte, stopping (Python `break`) once `byte_idx * 8 + bit` reaches
`max_zones`. -/
def zone_bits (byte_val byte_idx max_zones : Nat) : List Bool :=
  ((List.range 8).takeWhile fun bit => byte_idx * 8 + bit < max_zones).map
    fun bit => byte_val.testBit bit

/-- Outer loop of `_parse_zones`: up to 8 data bytes starting at
`offset`, stopping when the offset runs past the end of `data`.  The
fuel argument counts the remaining loop iterations (8 at the start). -/
def parse_zones_go (data : List Nat) (offset max_zones byte_idx : Nat) :
    Nat → List Bool
  | 0 => []
  | fuel + 1 =>
    if offset + byte_idx < data.length then
      zone_bits (data.getD (offset + byte_idx) 0) byte_idx max_zones ++
        parse_zones_go data offset max_zones (byte_idx + 1) fuel
    else []

/-- Zone bit-array decode, `_parse_zones` (client.py lines 223-235,
server.py lines 428-440), including the final `zones[:max_zones]`. -/
def parse_zones (data : List Nat) (offset max_zones : Nat) : List Bool :=
  (parse_zones_go data offset max_zones 0 8).take max_zones

/-- Decoded snapshot produced by client.py `AMTClient._parse_response`:
one field per key of the returned dict. -/
structure ClientStatus where
  connected : Bool
  model_id : Nat
  model_name : String
  max_zones : Nat
  firmware : String
  zones_open : List Bool
  zones_violated : List Bool
  zones_bypassed : List Bool
  partition_a : PartitionStatus
  partition_b : PartitionStatus
  partition_c : PartitionStatus
  partition_d : PartitionStatus
  armed : Bool
  stay : Bool
  triggered : Bool
  ac_power : Bool
  battery_connected : Bool
  battery_level : Nat
  siren : Bool
  pgms : List Bool
  problem : Bool
deriving Repr, DecidableEq

/-- Outbound-poll status decoder, client.py `AMTClient._parse_response`
(lines 245-324).  `data` is the response body as returned by the read
path (the bytes after the length byte).  Raises `AMTProtocolError` -
modelled as `Except.error` - exactly when the payload is shorter than 47
bytes.  Every `data[i] if len(data) > i else 0` guard is `List.getD i 0`. -/
def client_parse_response (data : List Nat) : Except String ClientStatus :=
  if data.length < 47 then
    Except.error ("Response too short: " ++ toString data.length ++ " bytes")
  else
    let model_id := data.getD OFFSET_MODEL_ID 0
    let model_name := (MODEL_NAMES model_id).getD ("Unknown (0x" ++ hex2 model_id ++ ")")
    let max_zones :=
      if model_id = MODEL_AMT_4010_SMART then MAX_ZONES_4010
      else if model_id = MODEL_AMT_2018 then MAX_ZONES_2018
      else MAX_ZONES_4010
    let firmware_byte := data.getD OFFSET_FIRMWARE 0
    let firmware :=
      toString ((firmware_byte >>> 4) &&& 0x0F) ++ "." ++ toString (firmware_byte &&& 0x0F)
    let part_ab := data.getD OFFSET_PARTITION_AB 0
    let part_cd := data.getD OFFSET_PARTITION_CD 0
    let central_status := data.getD OFFSET_CENTRAL_STATUS 0
    let power_status := data.getD OFFSET_POWER_STATUS 0
    let battery_level := min 100 (max 0 (data.getD OFFSET_BATTERY_LEVEL 0))
    let pgm_siren := data.getD OFFSET_PGM_SIREN_STATUS 0
    Except.ok
      { connected := true
        model_id := model_id
        model_name := model_name
        max_zones := max_zones
        firmware := firmware
        zones_open := parse_zones data OFFSET_ZONES_OPEN_START max_zones
        zones_violated := parse_zones data OFFSET_ZONES_VIOLATED_START max_zones
        zones_bypassed := parse_zones data OFFSET_ZONES_BYPASSED_START max_zones
        partition_a := parse_partition_status (part_ab &&& 0x0F)
        partition_b := parse_partition_status ((part_ab >>> 4) &&& 0x0F)
        partition_c := parse_partition_status (part_cd &&& 0x0F)
        partition_d := parse_partition_status ((part_cd >>> 4) &&& 0x0F)
        armed := central_status.testBit 3
        stay := central_status.testBit 4
        triggered := central_status.testBit 2
        ac_power := power_status.testBit 0
        battery_connected := power_status.testBit 2
        battery_level := battery_level
        siren := pgm_siren.testBit 0
        pgms := [pgm_siren.testBit 1, pgm_siren.testBit 2, pgm_siren.testBit 3]
        problem := central_status.testBit 4 }

/-- Decoded snapshot produced by server.py `AMTServer._parse_response`:
one field per key of the returned dict (server.py lines 534-568).
`datetime` is always `None` in the source (`DATA_DATETIME: None`). -/
structure ServerStatus where
  connected : Bool
  model_id : Nat
  model_name : String
  max_zones : Nat
  firmware : String
  zones_open : List Bool
  zones_violated : List Bool
  zones_bypassed : List Bool
  zones_tamper : List Bool
  zones_short_circuit : List Bool
  zones_low_battery : List Bool
  zones_open_count : Nat
  zones_violated_count : Nat
  zones_bypassed_count : Nat
  partition_a : PartitionStatus
  partition_b : PartitionStatus
  partition_c : PartitionStatus
  partition_d : PartitionStatus
  armed : Bool
  stay : Bool
  triggered : Bool
  ac_power : Bool
  battery_connected : Bool
  battery_level : Nat
  siren : Bool
  pgms : List Bool
  problem : Bool
  battery_low : Bool
  battery_absent : Bool
  battery_short : Bool
  aux_overload : Bool
  siren_wire_cut : Bool
  siren_short : Bool
  phone_line_cut : Bool
  comm_failure : Bool
  datetime : Option String
deriving Repr, DecidableEq

/-- Inbound status decoder, server.py `AMTServer._parse_response`
(lines 450-568).  `data` is the whole frame
`[length] [0xE9] content... [checksum]`; the content is
`data[2:-1]`.  Raises `AMTProtocolError` - modelled as `Except.error` -
exactly when `data` is shorter than 10 bytes.  Zone counts are computed
before the model-dependent truncation, as in the source. -/
def server_parse_response (data : List Nat) : Except String ServerStatus :=
  if data.length < 10 then
    Except.error ("Response too short: " ++ toString data.length ++ " bytes")
  else
    let content := (data.drop 2).dropLast
    let max_zones0 := MAX_ZONES_4010
    let zones_open0 := parse_zones content 0 max_zones0
    let zones_violated0 := parse_zones content 8 max_zones0
    let zones_bypassed0 := parse_zones content 16 max_zones0
    let zones_open_count := zones_open0.count true
    let zones_violated_count := zones_violated0.count true
    let zones_bypassed_count := zones_bypassed0.count true
    let model_id := content.getD 24 0
    let model_name := (MODEL_NAMES model_id).getD ("AMT (0x" ++ hex2 model_id ++ ")")
    let max_zones := if model_id = MODEL_AMT_2018 then MAX_ZONES_2018 else max_zones0
    let zones_open :=
      if model_id = MODEL_AMT_2018 then zones_open0.take MAX_ZONES_2018 else zones_open0
    let zones_violated :=
      if model_id = MODEL_AMT_2018 then zones_violated0.take MAX_ZONES_2018 else zones_violated0
    let zones_bypassed :=
      if model_id = MODEL_AMT_2018 then zones_bypassed0.take MAX_ZONES_2018 else zones_bypassed0
    let firmware_byte := content.getD 26 0
    let firmware :=
      toString ((firmware_byte >>> 4) &&& 0x0F) ++ "." ++ toString (firmware_byte &&& 0x0F)
    let part_ab := content.getD 27 0
    let part_cd := content.getD 28 0
    let central_status := content.getD 29 0
    let power_status := content.getD 39 0
    let ac_power := power_status.testBit 7
    let battery_connected := ! power_status.testBit 6
    let battery_low := power_status.testBit 5
    let battery_level0 := content.getD 40 0
    let battery_level := if battery_level0 > 100 then 100 else battery_level0
    let pgm_byte := content.getD 41 0
    Except.ok
      { connected := true
        model_id := model_id
        model_name := model_name
        max_zones := max_zones
        firmware := firmware
        zones_open := zones_open
        zones_violated := zones_violated
        zones_bypassed := zones_bypassed
        zones_tamper := List.replicate MAX_ZONES_TAMPER false
        zones_short_circuit := List.replicate MAX_ZONES_SHORT_CIRCUIT false
        zones_low_battery := List.replicate MAX_ZONES_LOW_BATTERY false
        zones_open_count := zones_open_count
        zones_violated_count := zones_violated_count
        zones_bypassed_count := zones_bypassed_count
        partition_a := parse_partition_status (part_ab &&& 0x0F)
        partition_b := parse_partition_status ((part_ab >>> 4) &&& 0x0F)
        partition_c := parse_partition_status ((part_cd) &&& 0x0F)
        partition_d := parse_partition_status ((part_cd >>> 4) &&& 0x0F)
        armed := central_status.testBit 3
        stay := central_status.testBit 4
        triggered := central_status.testBit 2
        ac_power := ac_power
        battery_connected := battery_connected
        battery_level := battery_level
        siren := pgm_byte.testBit 0
        pgms :=
          (List.range MAX_PGMS_SERVER).map fun i =>
            if i < min 8 MAX_PGMS_SERVER then
              (if i < 7 then pgm_byte.testBit (i + 1) else false)
            else false
        problem := battery_low || ! battery_connected
        battery_low := battery_low
        battery_absent := ! battery_connected
        battery_short := false
        aux_overload := false
        siren_wire_cut := false
        siren_short := false
        phone_line_cut := false
        comm_failure := false
        datetime := none }

/-- Modelled from the spec: `NACK_MESSAGES` is imported by server.py from
`.const` but missing from the const.py in the tree.  The spec fixes only
its domain - every code in [0xE0, 0xEF] maps to a human-readable
message - so the table is modelled as a total lookup on that range with a
distinct message per code. -/
def NACK_MESSAGES (code : Nat) : Option String :=
  if 0xE0 ≤ code ∧ code ≤ 0xEF then
    some ("Comando rejeitado pelo painel, NACK 0x" ++ hex2_upper code)
  else none

/-- Typed NACK rejection, server.py `AMTNackError` (lines 95-102). -/
structure AMTNackError where
  nack_code : Nat
  message : String
deriving Repr, DecidableEq

/-- Constructor logic of `AMTNackError.__init__` (server.py lines 98-102)
when called without an explicit message: the message is the table entry,
or the unknown-error fallback. -/
def mk_nack_error (code : Nat) : AMTNackError :=
  { nack_code := code
    message := (NACK_MESSAGES code).getD ("Erro desconhecido (0x" ++ hex2_upper code ++ ")") }

/-- NACK detection on a resolved response, server.py `AMTServer._send_command`
lines 415-421: when the response is at least 3 bytes, its second byte is
the 0xE9 marker and the content `response[2:-1]` starts with a byte in
[0xE0, 0xEF], the command raises `AMTNackError` with that code; otherwise
the raw response frame is returned. -/
def check_nack (response : List Nat) : Except AMTNackError (List Nat) :=
  if 3 ≤ response.length ∧ response.getD 1 0 = FRAME_START then
    match (response.drop 2).dropLast with
    | c :: _ =>
      if 0xE0 ≤ c ∧ c ≤ 0xEF then Except.error (mk_nack_error c)
      else Except.ok response
    | [] => Except.ok response
  else Except.ok response

/-- Connection-slot state of the server, server.py `AMTServer` field
`_connection` (line 152): `some id` is the active panel connection. -/
structure ServerConnState where
  connection : Option Nat
deriving Repr, DecidableEq

/-- Observable effects of accepting a connection. -/
inductive ConnEvent where
  | closeConn (id : Nat)
  | activate (id : Nat)
deriving Repr, DecidableEq

/-- Accept path of server.py `AMTServer._handle_client` (lines 258-267):
when a panel connection is already active it is closed first
(`await self._connection.close()`), then the new connection is stored in
the single `_connection` slot.  The event list records the effects in
program order. -/
def handle_new_connection (s : ServerConnState) (new_id : Nat) :
    ServerConnState × List ConnEvent :=
  match s.connection with
  | some old => (⟨some new_id⟩, [ConnEvent.closeConn old, ConnEvent.activate new_id])
  | none => (⟨some new_id⟩, [ConnEvent.activate new_id])

/-- One pass of the frame-processing loop in `AMTServer._handle_client`
(lines 281-285): `while len(buffer) > 0`, extract a frame; a `None`
result (incomplete data or a discarded checksum-invalid frame) breaks
the loop.  Returns the frames processed in this pass and the buffer left
for the next socket read.  The fuel counts loop iterations; each
iteration that continues consumes at least one buffered byte, so
`buffer.length` fuel is always enough. -/
def process_pass_go (fuel : Nat) (buffer : List Nat) :
    List (List Nat) × List Nat :=
  match fuel with
  | 0 => ([], buffer)
  | fuel + 1 =>
    if buffer.isEmpty then ([], buffer)
    else
      match extract_frame buffer with
      | (none, buffer') => ([], buffer')
      | (some frame, buffer') =>
        let rest := process_pass_go fuel buffer'
        (frame :: rest.1, rest.2)

/-- Frame-processing pass with sufficient fuel. -/
def process_pass (buffer : List Nat) : List (List Nat) × List Nat :=
  process_pass_go buffer.length buffer

/-- Phases of one command issuance inside `_send_command` (client.py
lines 183-221, server.py lines 392-426): `idle` before the call,
`wantLock` while blocked on `async with lock`, `locked` after acquiring
the lock but before `writer.write(frame)`, `awaitingResp` between the
socket write and the response / timeout, `done` after the lock is
released. -/
inductive FlightPhase where
  | idle
  | wantLock
  | locked
  | awaitingResp
  | done
deriving Repr, DecidableEq

/-- Connection state shared by two concurrent command issuers: the
`asyncio.Lock` holder (client.py line 89 / server.py line 122) and each
task's phase. -/
structure FlightState where
  lock : Option Bool
  phase : Bool → FlightPhase

/-- Initial state: lock free, both tasks idle. -/
def initFlight : FlightState :=
  { lock := none, phase := fun _ => FlightPhase.idle }

/-- Observable steps of the two-task command system. -/
inductive FlightEv where
  | start (t : Bool)
  | acquire (t : Bool)
  | write (t : Bool)
  | resolve (t : Bool)
deriving Repr, DecidableEq

/-- Pointwise phase update. -/
def setPhase (f : Bool → FlightPhase) (t : Bool) (p : FlightPhase) :
    Bool → FlightPhase :=
  fun u => if u = t then p else f u

/-- Small-step semantics of `_send_command` under the per-connection
`asyncio.Lock`: a task may start a command at any time; it acquires the
lock only when the lock is free (`async with self._lock`); it writes its
frame only while holding the lock (`writer.write(frame)`); `resolve`
covers both response arrival and timeout, after which the `async with`
block exits and releases the lock. -/
inductive FlightStep : FlightState → FlightEv → FlightState → Prop where
  | start (s : FlightState) (t : Bool) :
      s.phase t = FlightPhase.idle →
      FlightStep s (FlightEv.start t) ⟨s.lock, setPhase s.phase t FlightPhase.wantLock⟩
  | acquire (s : FlightState) (t : Bool) :
      s.phase t = FlightPhase.wantLock → s.lock = none →
      FlightStep s (FlightEv.acquire t) ⟨some t, setPhase s.phase t FlightPhase.locked⟩
  | write (s : FlightState) (t : Bool) :
      s.phase t = FlightPhase.locked → s.lock = some t →
      FlightStep s (FlightEv.write t) ⟨s.lock, setPhase s.phase t FlightPhase.awaitingResp⟩
  | resolve (s : FlightState) (t : Bool) :
      s.phase t = FlightPhase.awaitingResp → s.lock = some t →
      FlightStep s (FlightEv.resolve t) ⟨none, setPhase s.phase t FlightPhase.done⟩

/-- Traces of the command system, events listed oldest first. -/
inductive FlightReach : List FlightEv → FlightState → Prop where
  | init : FlightReach [] initFlight
  | snoc (evs : List FlightEv) (s : FlightState) (e : FlightEv) (s' : FlightState) :
      FlightReach evs s → FlightStep s e s' → FlightReach (evs ++ [e]) s'

/-- Lock discipline invariant: a task that has written its frame and is
still awaiting the response holds the connection lock. -/
def lockInv (s : FlightState) : Prop :=
  ∀ t, s.phase t = FlightPhase.awaitingResp → s.lock = some t

/-- Task `t` has an unresolved frame write in the trace: a `write t`
event with no later `resolve t`. -/
def openWrite (evs : List FlightEv) (t : Bool) : Prop :=
  ∃ pre mid, evs = pre ++ FlightEv.write t :: mid ∧ FlightEv.resolve t ∉ mid

/-- Single-flight property of a trace: between a frame write by one task
and a later frame write by the other task there is a resolution
(response or timeout) of the first write. -/
def noInterleave (evs : List FlightEv) : Prop :=
  ∀ (t t' : Bool) (pre mid post : List FlightEv),
    evs = pre ++ FlightEv.write t :: (mid ++ FlightEv.write t' :: post) →
    t' ≠ t → FlightEv.resolve t ∈ mid

/-- Concrete two-command trace used to instantiate the single-flight
theorem: the first task completes its command before the second writes. -/
def c9_trace : List FlightEv :=
  [FlightEv.start true, FlightEv.acquire true, FlightEv.write true,
   FlightEv.resolve true, FlightEv.start false, FlightEv.acquire false,
   FlightEv.write false]

/-- End state of `c9_trace`. -/
def c9_state : FlightState :=
  ⟨some false,
    setPhase
      (setPhase
        (setPhase
          (setPhase
            (setPhase
              (setPhase
                (setPhase (fun _ => FlightPhase.idle) true FlightPhase.wantLock)
                true FlightPhase.locked)
              true FlightPhase.awaitingResp)
            true FlightPhase.done)
          false FlightPhase.wantLock)
        false FlightPhase.locked)
      false FlightPhase.awaitingResp⟩

/-- Concrete well-formed inbound frame (status command, password "1234"). -/
def c10_good : List Nat :=
  server_build_frame ['1', '2', '3', '4'] [0x5A]

/-- The same frame with its checksum byte corrupted (0x40 becomes 0x41). -/
def c10_corrupted : List Nat :=
  c10_good.dropLast ++ [0x41]

/-- Helper: an XOR fold of byte values stays below 256. -/
theorem foldl_xor_lt (data : List Nat) (acc : Nat) (hacc : acc < 256)
    (h : ∀ b ∈ data, b < 256) : data.foldl Nat.xor acc < 256 := by
  induction data generalizing acc with
  | nil => simpa using hacc
  | cons b rest ih =>
    refine ih (Nat.xor acc b) ?_ fun x hx => h x (by simp [hx])
    have hb : b < 256 := h b (by simp)
    have h2 : Nat.xor acc b < 2 ^ 8 :=
      Nat.xor_lt_two_pow (by norm_num [hacc]) (by norm_num [hb])
    simpa using h2

set_option maxRecDepth 4096 in
/-- Claim C3: for any sequence of byte values, the inbound-role (server)
checksum is the bitwise complement of the outbound-role (client)
checksum of the same bytes - both as XOR with 0xFF and, since the value
is an 8-bit quantity, as `255 - v`. -/
theorem C3_checksum_complement (data : List Nat) (h : ∀ b ∈ data, b < 256) :
    server_checksum data = Nat.xor (client_checksum data) 0xFF ∧
    server_checksum data = 255 - client_checksum data := by
  refine ⟨rfl, ?_⟩
  have hlt : client_checksum data < 256 := foldl_xor_lt data 0 (by norm_num) h
  have hcompl : ∀ v, v < 256 → Nat.xor v 255 = 255 - v := by decide
  exact hcompl (client_checksum data) hlt

/-- Witness for C3 at the concrete byte sequence [8, 233, 33]. -/
theorem C3_checksum_complement_witness :
    (∀ b ∈ [8, 233, 33], b < 256) ∧
    server_checksum [8, 233, 33] = Nat.xor (client_checksum [8, 233, 33]) 0xFF ∧
    server_checksum [8, 233, 33] = 255 - client_checksum [8, 233, 33] :=
  ⟨by decide, C3_checksum_complement [8, 233, 33] (by decide)⟩

/-- Helper: the guarded per-character decode of the source equals the
spec's "hex value, non-hex decodes as 0" description, for every
character. -/
theorem password_char_val_eq_hex (c : Char) :
    password_char_val c = hex_digit_val c := by
  unfold password_char_val is_hex_char hex_digit_val to_upper_cp
  generalize c.toNat = n
  have hmem :
      ((if 97 ≤ n ∧ n ≤ 122 then n - 32 else n) ∈
        [48, 49, 50, 51, 52, 53, 54, 55, 56, 57, 65, 66, 67, 68, 69, 70]) ↔
      ((48 ≤ n ∧ n ≤ 57) ∨ (97 ≤ n ∧ n ≤ 102) ∨ (65 ≤ n ∧ n ≤ 70)) := by
    split_ifs with h <;> simp only [List.mem_cons, List.not_mem_nil, or_false] <;> omega
  by_cases hc : (48 ≤ n ∧ n ≤ 57) ∨ (97 ≤ n ∧ n ≤ 102) ∨ (65 ≤ n ∧ n ≤ 70)
  · rw [if_pos (by simpa [List.elem_iff, hmem] using hc)]
  · rw [if_neg (by simpa [List.elem_iff, hmem] using hc)]
    push_neg at hc
    split_ifs with h1 h2 h3 <;> omega

/-- Claim C4: the nibble-packed password encoder agrees with the spec's
description (pad right with 'F' to 6 characters, truncate, hex-decode
pairs with non-hex as 0, pack `high <<< 4 ||| low`) for every password,
always returns exactly 3 bytes, and encodes "1234" to
[0x12, 0x34, 0xFF]. -/
theorem C4_password_encoding :
    (∀ pwd : List Char, password_to_bytes pwd = password_spec pwd) ∧
    (∀ pwd : List Char, (password_to_bytes pwd).length = 3) ∧
    password_to_bytes ['1', '2', '3', '4'] = [0x12, 0x34, 0xFF] := by
  refine ⟨fun pwd => ?_, fun pwd => ?_, by decide⟩
  · show [_, _, _] = _
    simp [password_spec, password_char_val_eq_hex]
  · rfl

/-- Claim C2: behaviour of the stream decoder `extract_frame` on every
buffer - an empty buffer yields nothing; a leading heartbeat sentinel
yields the 1-byte heartbeat frame; fewer than 3 buffered bytes, or fewer
than declared length + 2 bytes, yield no frame and leave the buffer
unchanged; a complete frame with an invalid checksum is consumed from
the buffer while no frame (and, the function being total, no error) is
returned. -/
theorem C2_stream_decoder :
    (extract_frame [] = (none, [])) ∧
    (∀ rest : List Nat, extract_frame (FRAME_HEARTBEAT :: rest) = (some [FRAME_HEARTBEAT], rest)) ∧
    (∀ (b : Nat) (rest : List Nat), b ≠ FRAME_HEARTBEAT → (b :: rest).length < 3 →
      extract_frame (b :: rest) = (none, b :: rest)) ∧
    (∀ (b : Nat) (rest : List Nat), b ≠ FRAME_HEARTBEAT → 3 ≤ (b :: rest).length →
      (b :: rest).length < b + 2 →
      extract_frame (b :: rest) = (none, b :: rest)) ∧
    (∀ (b : Nat) (rest : List Nat), b ≠ FRAME_HEARTBEAT → 3 ≤ (b :: rest).length →
      b + 2 ≤ (b :: rest).length →
      validate_checksum ((b :: rest).take (b + 2)) = false →
      extract_frame (b :: rest) = (none, (b :: rest).drop (b + 2))) := by
  refine ⟨rfl, fun rest => ?_, fun b rest hb hlen => ?_, fun b rest hb hlen hshort => ?_,
    fun b rest hb hlen hcomplete hbad => ?_⟩
  · simp [extract_frame]
  · simp only [List.length_cons] at hlen
    simp [extract_frame, hb, hlen]
  · simp only [List.length_cons] at hlen hshort
    simp only [extract_frame, if_neg hb]
    rw [if_neg (by simp; omega), if_pos (by simp; omega)]
  · simp only [List.length_cons] at hlen hcomplete
    simp only [extract_frame, if_neg hb]
    rw [if_neg (by simp; omega), if_neg (by simp; omega)]
    simp only [List.take_succ_cons, List.drop_succ_cons] at hbad ⊢
    simp [hbad]

/-- Witness for C2 at concrete buffers exercising each hypothesis-bearing
case: heartbeat, short buffer, incomplete frame, checksum-invalid frame. -/
theorem C2_stream_decoder_witness :
    extract_frame [0xF7, 9] = (some [0xF7], [9]) ∧
    extract_frame [5, 1] = (none, [5, 1]) ∧
    extract_frame [5, 1, 2] = (none, [5, 1, 2]) ∧
    extract_frame [1, 2, 3] = (none, []) :=
  ⟨C2_stream_decoder.2.1 [9],
   C2_stream_decoder.2.2.1 5 [1] (by decide) (by decide),
   C2_stream_decoder.2.2.2.1 5 [1, 2] (by decide) (by decide) (by decide),
   C2_stream_decoder.2.2.2.2 1 [2, 3] (by decide) (by decide) (by decide) (by decide)⟩

/-- Claim C10: in the accept-in role's frame-processing loop, a
checksum-corrupted complete frame is consumed but ends the pass, so a
valid complete frame sitting right behind it in the buffer is not
extracted in the same pass; it is extracted by a later pass once the
loop runs again. -/
theorem C10_corrupted_frame_ends_pass :
    validate_checksum c10_corrupted = false ∧
    validate_checksum c10_good = true ∧
    process_pass (c10_corrupted ++ c10_good) = ([], c10_good) ∧
    process_pass c10_good = ([c10_good], []) := by
  decide

/-- Claim C5: each status decoder raises its protocol error exactly when
the payload is below the role's minimum - 47 bytes for the outbound-poll
(client) variant and 10 bytes for the inbound (server) variant - and
returns a status snapshot for every payload at or above the minimum. -/
theorem C5_parse_minimums :
    (∀ data : List Nat,
      (∃ e, client_parse_response data = Except.error e) ↔ data.length < 47) ∧
    (∀ data : List Nat,
      (∃ st, client_parse_response data = Except.ok st) ↔ 47 ≤ data.length) ∧
    (∀ data : List Nat,
      (∃ e, server_parse_response data = Except.error e) ↔ data.length < 10) ∧
    (∀ data : List Nat,
      (∃ st, server_parse_response data = Except.ok st) ↔ 10 ≤ data.length) := by
  refine ⟨fun data => ?_, fun data => ?_, fun data => ?_, fun data => ?_⟩
  · by_cases h : data.length < 47 <;> simp [client_parse_response, h]
  · by_cases h : data.length < 47 <;> simp [client_parse_response, h, Nat.le_of_not_lt]
  · by_cases h : data.length < 10 <;> simp [server_parse_response, h]
  · by_cases h : data.length < 10 <;> simp [server_parse_response, h, Nat.le_of_not_lt]

/-- Claim C6: a resolved response whose second byte is the 0xE9 marker
and whose content starts with a byte in [0xE0, 0xEF] makes the command
fail with a NackError carrying that code and the code's table message,
instead of returning the raw frame; in particular content starting with
0xE3 yields code 0xE3 and its table message. -/
theorem C6_nack_detection :
    (∀ (response : List Nat) (c : Nat) (rest : List Nat),
      3 ≤ response.length → response.getD 1 0 = FRAME_START →
      (response.drop 2).dropLast = c :: rest →
      0xE0 ≤ c → c ≤ 0xEF →
      check_nack response = Except.error (mk_nack_error c) ∧
      (mk_nack_error c).nack_code = c ∧
      NACK_MESSAGES c = some (mk_nack_error c).message) ∧
    check_nack [0x02, FRAME_START, 0xE3, 0x00] =
      Except.error
        { nack_code := 0xE3,
          message := "Comando rejeitado pelo painel, NACK 0xE3" } := by
  constructor
  · intro response c rest hlen hmark hcontent hlo hhi
    refine ⟨?_, rfl, ?_⟩
    · unfold check_nack
      rw [if_pos ⟨hlen, hmark⟩, hcontent]
      exact if_pos ⟨hlo, hhi⟩
    · simp [NACK_MESSAGES, mk_nack_error, hlo, hhi]
  · rfl

/-- Witness for C6 at the concrete 4-byte response
[0x02, 0xE9, 0xE3, 0x00]. -/
theorem C6_nack_detection_witness :
    check_nack [0x02, FRAME_START, 0xE3, 0x00] = Except.error (mk_nack_error 0xE3) ∧
    (mk_nack_error 0xE3).nack_code = 0xE3 ∧
    NACK_MESSAGES 0xE3 = some (mk_nack_error 0xE3).message :=
  C6_nack_detection.1 [0x02, FRAME_START, 0xE3, 0x00] 0xE3 []
    (by decide) (by decide) (by decide) (by decide) (by decide)

/-- Claim C7: the `problem` flag is derived per role and the derivations
differ - the inbound (server) decoder sets it to
`battery_low OR NOT battery_connected` (bits 5 and 6 of content byte 39),
while the outbound (client) decoder reads bit 4 of the central-status
byte at offset 30. -/
theorem C7_problem_derivations :
    (∀ data : List Nat, 10 ≤ data.length →
      ∃ st, server_parse_response data = Except.ok st ∧
        st.problem = (st.battery_low || ! st.battery_connected) ∧
        st.battery_low = ((data.drop 2).dropLast.getD 39 0).testBit 5 ∧
        st.battery_connected = ! ((data.drop 2).dropLast.getD 39 0).testBit 6) ∧
    (∀ data : List Nat, 47 ≤ data.length →
      ∃ st, client_parse_response data = Except.ok st ∧
        st.problem = (data.getD OFFSET_CENTRAL_STATUS 0).testBit 4) := by
  constructor
  · intro data h
    rw [server_parse_response, if_neg (Nat.not_lt.mpr h)]
    exact ⟨_, rfl, rfl, rfl, rfl⟩
  · intro data h
    rw [client_parse_response, if_neg (Nat.not_lt.mpr h)]
    exact ⟨_, rfl, rfl⟩

/-- Witness for C7 at the all-zero minimum-length payloads. -/
theorem C7_problem_derivations_witness :
    (10 ≤ (List.replicate 10 0).length ∧
      ∃ st, server_parse_response (List.replicate 10 0) = Except.ok st ∧
        st.problem = (st.battery_low || ! st.battery_connected) ∧
        st.battery_low = (((List.replicate 10 0).drop 2).dropLast.getD 39 0).testBit 5 ∧
        st.battery_connected = ! (((List.replicate 10 0).drop 2).dropLast.getD 39 0).testBit 6) ∧
    (47 ≤ (List.replicate 47 0).length ∧
      ∃ st, client_parse_response (List.replicate 47 0) = Except.ok st ∧
        st.problem = ((List.replicate 47 0).getD OFFSET_CENTRAL_STATUS 0).testBit 4) :=
  ⟨⟨by decide, C7_problem_derivations.1 (List.replicate 10 0) (by decide)⟩,
   ⟨by decide, C7_problem_derivations.2 (List.replicate 47 0) (by decide)⟩⟩

/-- Claim C8: in the accept-in role at most one panel connection is
active; accepting a new connection while one is active closes the old
connection first (the close effect precedes the activation in program
order) and then makes the new connection the single active one. -/
theorem C8_single_active_connection :
    (∀ (s : ServerConnState) (old new_id : Nat), s.connection = some old →
      handle_new_connection s new_id =
        (⟨some new_id⟩, [ConnEvent.closeConn old, ConnEvent.activate new_id])) ∧
    (∀ (s : ServerConnState) (new_id : Nat), s.connection = none →
      handle_new_connection s new_id = (⟨some new_id⟩, [ConnEvent.activate new_id])) := by
  constructor
  · intro s old new_id h
    simp [handle_new_connection, h]
  · intro s new_id h
    simp [handle_new_connection, h]

/-- Witness for C8: replacing active connection 1 with connection 2, and
accepting connection 2 with no active connection. -/
theorem C8_single_active_connection_witness :
    handle_new_connection ⟨some 1⟩ 2 =
      (⟨some 2⟩, [ConnEvent.closeConn 1, ConnEvent.activate 2]) ∧
    handle_new_connection ⟨none⟩ 2 = (⟨some 2⟩, [ConnEvent.activate 2]) :=
  ⟨C8_single_active_connection.1 ⟨some 1⟩ 1 2 rfl,
   C8_single_active_connection.2 ⟨none⟩ 2 rfl⟩

/-- Helper: a frame built as body plus its inbound checksum validates. -/
theorem validate_checksum_append (l : List Nat) (h : l ≠ []) :
    validate_checksum (l ++ [server_checksum l]) = true := by
  unfold validate_checksum
  rw [if_neg (by
    have hpos : 0 < l.length := List.length_pos.mpr h
    simp only [List.length_append, List.length_cons, List.length_nil]
    omega)]
  simp

/-- Helper: the stream decoder returns a buffered frame whole when the
buffer is exactly one complete frame with a valid checksum and the
length byte is not the heartbeat sentinel. -/
theorem extract_frame_exact (L : Nat) (body : List Nat)
    (hL : L ≠ FRAME_HEARTBEAT) (hL1 : 1 ≤ L) (hlen : body.length = L + 1)
    (hval : validate_checksum (L :: body) = true) :
    extract_frame (L :: body) = (some (L :: body), []) := by
  simp only [extract_frame]
  rw [if_neg hL, if_neg (by simp [hlen]; omega), if_neg (by simp [hlen])]
  rw [List.take_of_length_le (by simp [hlen]), List.drop_of_length_le (by simp [hlen])]
  simp [hval]

/-- Claim C1 (amended): encode-decode round-trip per role.  For the
inbound (server) role, provided the frame stays within the one-byte
length limit and its declared length byte is not the heartbeat sentinel
0xF7, the stream decoder returns the whole built frame, consuming the
entire buffer, and the trailing checksum validates under the inbound
checksum; the frame carries the command between the password bytes and
the final separator.  For the outbound (client) role, the outbound read
convention (one length byte counting the checksum, then that many bytes)
recovers the frame body whole, and the trailing byte equals the outbound
XOR checksum of all preceding bytes. -/
theorem C1_roundtrip_amended :
    (∀ (pwd : List Char) (cmd : List Nat),
      let inner := [FRAME_START, FRAME_SEPARATOR] ++ ascii_encode pwd ++ cmd ++ [FRAME_SEPARATOR]
      let frame := server_build_frame pwd cmd
      inner.length ≤ 255 → inner.length ≠ FRAME_HEARTBEAT →
      frame = (inner.length :: inner) ++ [server_checksum (inner.length :: inner)] ∧
      extract_frame frame = (some frame, []) ∧
      validate_checksum frame = true) ∧
    (∀ (pwd : List Char) (cmd : List Nat),
      let inner := [FRAME_START, FRAME_SEPARATOR] ++ password_to_bytes pwd ++ cmd ++ [FRAME_SEPARATOR]
      let ck := client_checksum ((inner.length + 1) :: inner)
      let frame := client_build_frame pwd cmd
      inner.length + 1 ≤ 255 →
      frame = ((inner.length + 1) :: inner) ++ [ck] ∧
      client_read_response frame = (some (inner ++ [ck]), []) ∧
      frame.getLastD 0 = client_checksum frame.dropLast) := by
  constructor
  · intro pwd cmd inner frame _ hsentinel
    have hframe : frame = inner.length :: (inner ++ [server_checksum (inner.length :: inner)]) := by
      simp [frame, server_build_frame, inner]
    have hval : validate_checksum (frame) = true := by
      rw [hframe]
      exact validate_checksum_append (inner.length :: inner) (by simp)
    refine ⟨by simp [hframe], ?_, hval⟩
    rw [hframe]
    apply extract_frame_exact
    · exact hsentinel
    · have h3 : 3 ≤ inner.length := by
        show 3 ≤ ([FRAME_START, FRAME_SEPARATOR] ++ ascii_encode pwd ++ cmd ++
          [FRAME_SEPARATOR]).length
        simp only [List.length_append, List.length_cons, List.length_nil, ascii_encode,
          List.length_map]
        omega
      omega
    · simp
    · rw [← hframe]; exact hval
  · intro pwd cmd inner ck frame _
    have hframe : frame = (inner.length + 1) :: (inner ++ [ck]) := by
      simp [frame, client_build_frame, inner, ck]
    refine ⟨by simp [hframe], ?_, ?_⟩
    · rw [hframe]
      simp only [client_read_response]
      rw [List.take_of_length_le (by simp), List.drop_of_length_le (by simp)]
    · rw [hframe, ← List.cons_append, List.dropLast_concat,
        List.getLastD_concat]

/-- Witness for C1 (amended) at password "1234" and the status command. -/
theorem C1_roundtrip_amended_witness :
    (([FRAME_START, FRAME_SEPARATOR] ++ ascii_encode ['1', '2', '3', '4'] ++ [0x5A] ++
        [FRAME_SEPARATOR]).length ≤ 255 ∧
      ([FRAME_START, FRAME_SEPARATOR] ++ ascii_encode ['1', '2', '3', '4'] ++ [0x5A] ++
        [FRAME_SEPARATOR]).length ≠ FRAME_HEARTBEAT ∧
      extract_frame (server_build_frame ['1', '2', '3', '4'] [0x5A]) =
        (some (server_build_frame ['1', '2', '3', '4'] [0x5A]), []) ∧
      validate_checksum (server_build_frame ['1', '2', '3', '4'] [0x5A]) = true) ∧
    (client_read_response (client_build_frame ['1', '2', '3', '4'] [0x5A]) =
        (some ((client_build_frame ['1', '2', '3', '4'] [0x5A]).drop 1), []) ∧
      (client_build_frame ['1', '2', '3', '4'] [0x5A]).getLastD 0 =
        client_checksum (client_build_frame ['1', '2', '3', '4'] [0x5A]).dropLast) :=
  ⟨⟨by decide, by decide,
    (C1_roundtrip_amended.1 ['1', '2', '3', '4'] [0x5A] (by decide) (by decide)).2.1,
    (C1_roundtrip_amended.1 ['1', '2', '3', '4'] [0x5A] (by decide) (by decide)).2.2⟩,
   ⟨(C1_roundtrip_amended.2 ['1', '2', '3', '4'] [0x5A] (by decide)).2.1,
    (C1_roundtrip_amended.2 ['1', '2', '3', '4'] [0x5A] (by decide)).2.2⟩⟩

/-- Helper: pointwise phase update hits the updated task. -/
theorem setPhase_same (f : Bool → FlightPhase) (t : Bool) (p : FlightPhase) :
    setPhase f t p t = p := by
  simp [setPhase]

/-- Helper: pointwise phase update leaves other tasks unchanged. -/
theorem setPhase_other (f : Bool → FlightPhase) (t : Bool) (p : FlightPhase)
    (u : Bool) (h : u ≠ t) : setPhase f t p u = f u := by
  simp [setPhase, h]

/-- Helper: a snoc list that splits as append-cons either has the new
element as the cons element with nothing after it, or the split lies
entirely inside the original list. -/
theorem snoc_eq_append_cons {α : Type} (l : List α) (a : α) (pre suf : List α)
    (x : α) (h : l ++ [a] = pre ++ x :: suf) :
    (suf = [] ∧ l = pre ∧ x = a) ∨
    ∃ suf', suf = suf' ++ [a] ∧ l = pre ++ x :: suf' := by
  rcases List.eq_nil_or_concat suf with hs | ⟨suf', b, hs⟩
  · subst hs
    have h2 := List.append_inj' h (by simp)
    exact Or.inl ⟨rfl, h2.1, by simpa using h2.2.symm⟩
  · subst hs
    have h' : l ++ [a] = (pre ++ x :: suf') ++ [b] := by simpa using h
    have h2 := List.append_inj' h' (by simp)
    have hab : a = b := by simpa using h2.2
    exact Or.inr ⟨suf', by rw [hab]; simp, h2.1⟩

/-- Helper: every step of the flight system preserves the
lock-discipline invariant. -/
theorem step_lockInv (s : FlightState) (e : FlightEv) (s' : FlightState)
    (hstep : FlightStep s e s') (hinv : lockInv s) : lockInv s' := by
  cases hstep with
  | start t hph =>
    intro u hu
    by_cases hut : u = t
    · subst hut; simp [setPhase] at hu
    · simp only [setPhase, if_neg hut] at hu
      exact hinv u hu
  | acquire t hph hlock =>
    intro u hu
    by_cases hut : u = t
    · subst hut; simp [setPhase] at hu
    · simp only [setPhase, if_neg hut] at hu
      have h2 := hinv u hu
      rw [hlock] at h2
      exact absurd h2 (by simp)
  | write t hph hlock =>
    intro u hu
    by_cases hut : u = t
    · subst hut; exact hlock
    · simp only [setPhase, if_neg hut] at hu
      exact hinv u hu
  | resolve t hph hlock =>
    intro u hu
    by_cases hut : u = t
    · subst hut; simp [setPhase] at hu
    · simp only [setPhase, if_neg hut] at hu
      have h2 := hinv u hu
      rw [hlock] at h2
      exact absurd (Option.some.inj h2).symm hut

/-- Helper: a step that is not the matching resolution keeps a task in
the awaiting-response phase. -/
theorem step_preserves_awaiting (s : FlightState) (e : FlightEv) (s' : FlightState)
    (t : Bool) (hstep : FlightStep s e s')
    (hph : s.phase t = FlightPhase.awaitingResp)
    (hne : e ≠ FlightEv.resolve t) : s'.phase t = FlightPhase.awaitingResp := by
  cases hstep with
  | start u hu =>
    by_cases hut : t = u
    · subst hut; rw [hph] at hu; exact absurd hu (by simp)
    · simp only [setPhase, if_neg hut]
      exact hph
  | acquire u hu hlock =>
    by_cases hut : t = u
    · subst hut; rw [hph] at hu; exact absurd hu (by simp)
    · simp only [setPhase, if_neg hut]
      exact hph
  | write u hu hlock =>
    by_cases hut : t = u
    · subst hut; rw [hph] at hu; exact absurd hu (by simp)
    · simp only [setPhase, if_neg hut]
      exact hph
  | resolve u hu hlock =>
    by_cases hut : t = u
    · subst hut; exact absurd rfl hne
    · simp only [setPhase, if_neg hut]
      exact hph

/-- Helper: after a write step the writer awaits its response. -/
theorem step_write_awaiting (s : FlightState) (u : Bool) (s' : FlightState)
    (hstep : FlightStep s (FlightEv.write u) s') :
    s'.phase u = FlightPhase.awaitingResp := by
  cases hstep
  simp [setPhase]

/-- Helper: a write step requires the writer to hold the lock. -/
theorem step_write_lock (s : FlightState) (u : Bool) (s' : FlightState)
    (hstep : FlightStep s (FlightEv.write u) s') : s.lock = some u := by
  cases hstep
  assumption

/-- Helper: an open write in a snoc trace is either the new event or an
open write of the original trace not resolved by the new event. -/
theorem openWrite_snoc (evs : List FlightEv) (e : FlightEv) (t : Bool)
    (h : openWrite (evs ++ [e]) t) :
    e = FlightEv.write t ∨ (openWrite evs t ∧ e ≠ FlightEv.resolve t) := by
  obtain ⟨pre, mid, heq, hres⟩ := h
  rcases snoc_eq_append_cons evs e pre mid (FlightEv.write t) heq with
    ⟨hmid, hl, hx⟩ | ⟨mid', hmid, hl⟩
  · exact Or.inl hx.symm
  · refine Or.inr ⟨⟨pre, mid', hl, fun hc => hres ?_⟩, fun he => hres ?_⟩
    · rw [hmid]; exact List.mem_append_left _ hc
    · rw [hmid, he]; exact List.mem_append_right _ (by simp)

/-- Helper: the inductive invariant of the flight system - the lock
discipline holds, every open write sits in the awaiting-response phase,
and the trace never interleaves two writes without a resolution of the
first. -/
theorem flight_inv (evs : List FlightEv) (s : FlightState) (h : FlightReach evs s) :
    lockInv s ∧ (∀ t, openWrite evs t → s.phase t = FlightPhase.awaitingResp) ∧
      noInterleave evs := by
  induction h with
  | init =>
    refine ⟨fun t ht => ?_, fun t ht => ?_, fun t t' pre mid post heq hne => ?_⟩
    · simp [initFlight] at ht
    · obtain ⟨pre, mid, heq, -⟩ := ht
      exact absurd heq (by simp)
    · exact absurd heq (by simp)
  | snoc evs s e s' hr hstep ih =>
    obtain ⟨ih1, ih2, ih3⟩ := ih
    refine ⟨step_lockInv s e s' hstep ih1, fun t ht => ?_,
      fun t t' pre mid post heq hne => ?_⟩
    · rcases openWrite_snoc evs e t ht with he | ⟨how, hnc⟩
      · subst he
        exact step_write_awaiting s t s' hstep
      · exact step_preserves_awaiting s e s' t hstep (ih2 t how) hnc
    · rcases snoc_eq_append_cons evs e pre (mid ++ FlightEv.write t' :: post)
        (FlightEv.write t) heq with ⟨hnil, -, -⟩ | ⟨suf', hsuf, hevs⟩
      · exact absurd hnil (by simp)
      · rcases snoc_eq_append_cons suf' e mid post (FlightEv.write t') hsuf.symm with
          ⟨hpost, hmid, hx⟩ | ⟨post', hpost, hsuf'⟩
        · rw [hmid] at hevs
          by_cases hresolve : FlightEv.resolve t ∈ mid
          · exact hresolve
          · exfalso
            have how : openWrite evs t := ⟨pre, mid, hevs, hresolve⟩
            have hph := ih2 t how
            have hlockt := ih1 t hph
            rw [← hx] at hstep
            have hlockt' := step_write_lock s t' s' hstep
            rw [hlockt] at hlockt'
            exact hne (Option.some.inj hlockt').symm
        · exact ih3 t t' pre mid post' (by rw [hevs, hsuf']) hne

/-- Claim C9: on each connection at most one command is in flight at a
time - in every reachable trace of the lock-guarded `_send_command`
structure (common to both roles), a frame write by one task is never
followed by a frame write of the other task without a resolution
(response or timeout) of the first write in between. -/
theorem C9_single_flight (evs : List FlightEv) (s : FlightState)
    (h : FlightReach evs s) (t t' : Bool) (pre mid post : List FlightEv)
    (heq : evs = pre ++ FlightEv.write t :: (mid ++ FlightEv.write t' :: post))
    (hne : t' ≠ t) : FlightEv.resolve t ∈ mid :=
  (flight_inv evs s h).2.2 t t' pre mid post heq hne

/-- Witness for C9: a concrete reachable two-command trace in which the
second task's write is preceded by the first task's resolution. -/
theorem C9_single_flight_witness :
    FlightReach c9_trace c9_state ∧
    FlightEv.resolve true ∈
      [FlightEv.resolve true, FlightEv.start false, FlightEv.acquire false] := by
  have h0 := FlightReach.init
  have h1 := FlightReach.snoc _ _ _ _ h0 (FlightStep.start initFlight true rfl)
  have h2 := FlightReach.snoc _ _ _ _ h1 (FlightStep.acquire _ true rfl rfl)
  have h3 := FlightReach.snoc _ _ _ _ h2 (FlightStep.write _ true rfl rfl)
  have h4 := FlightReach.snoc _ _ _ _ h3 (FlightStep.resolve _ true rfl rfl)
  have h5 := FlightReach.snoc _ _ _ _ h4 (FlightStep.start _ false rfl)
  have h6 := FlightReach.snoc _ _ _ _ h5 (FlightStep.acquire _ false rfl rfl)
  have h7 := FlightReach.snoc _ _ _ _ h6 (FlightStep.write _ false rfl rfl)
  have hreach : FlightReach c9_trace c9_state := h7
  exact ⟨hreach,
    C9_single_flight c9_trace c9_state hreach true false
      [FlightEv.start true, FlightEv.acquire true]
      [FlightEv.resolve true, FlightEv.start false, FlightEv.acquire false]
      [] rfl (by decide)⟩

set_option maxRecDepth 100000 in
/-- Counterexample to claim C1 as stated: with password "1234" and a
244-byte command, the inner content length is 247 = 0xF7, so the built
server frame - well within the one-byte length limit - starts with the
heartbeat sentinel, and the stream decoder returns a 1-byte heartbeat
frame instead of recovering the command frame. -/
theorem C1_roundtrip_counterexample :
    extract_frame (server_build_frame ['1', '2', '3', '4'] (List.replicate 240 0x42)) =
      (some [FRAME_HEARTBEAT],
        (server_build_frame ['1', '2', '3', '4'] (List.replicate 240 0x42)).drop 1) ∧
    ¬ (extract_frame (server_build_frame ['1', '2', '3', '4'] (List.replicate 240 0x42)) =
        (some (server_build_frame ['1', '2', '3', '4'] (List.replicate 240 0x42)), [])) := by
  decide

end AMT
